import Mathlib

/-
Verification of the resilient data-access layer and character/pool registry
of the discord XP bot (xp_system_extension.py), via a shallow embedding.

Conventions of the embedding:
- Machine integers of the store are modelled as Lean Int (account ids, pool
  ids, xp counters); auto-increment character ids as Nat threaded through the
  state (next_char_id).
- Python kwargs values are modelled by PyVal (int or str); str(v) is pyStr,
  int(v) is pyIntOpt (none models a raised ValueError).
- The two notions of failure are the DbErr constructors: notifyUser models
  notifyUserException (the user-facing validation error class of the source),
  pyError models any other raised Python exception (TypeError, ValueError,
  AttributeError, OperationalError).
- Error-message strings are lightly normalized: quote characters and
  apostrophes of the source messages are omitted, values are not interpolated.
- fetch (src lines 181-192) returns the single row itself when exactly one row
  matches and the list of rows otherwise; FetchResult/fetchShape model that
  shape discrimination. Callers that re-wrap a lone row into a list are
  modelled directly by the underlying row list.
- strLower models Python str.lower; String.toInt? models int(..) on a
  string (whitespace and underscore tolerance of Python are not modelled; no
  claim depends on such inputs).
-/

namespace XpBot

/-- Errors raised by the embedded operations. notifyUser is the user-facing
notifyUserException class of the source; pyError is any other Python
exception. -/
inductive DbErr where
  | notifyUser (msg : String)
  | pyError (msg : String)
deriving DecidableEq, Repr

/-- Whether an error is of the user-facing notifyUserException class. -/
def DbErr.isUserFacing : DbErr → Bool
  | .notifyUser _ => true
  | .pyError _ => false

/-- One row of the accounts table: account_id, pool_id. -/
structure AccRow where
  account_id : Int
  pool_id : Int
deriving DecidableEq, Repr

/-- One row of the characters table (the 12 columns unpacked by
player_character, src lines 32-52). -/
structure CharRow where
  character_id : Nat
  character_name : String
  character_color : Option String
  character_image : Option String
  total_xp : Int
  roleplay_xp : Int
  level : Int
  level_notification : Int
  words_cached : Int
  owner_id : Int
  pool_id : Int
  active_on_account : Int
deriving DecidableEq, Repr

/-- The persistent store: the two tables, plus the auto-increment counter for
character_id. -/
structure DBState where
  accounts : List AccRow
  chars : List CharRow
  next_char_id : Nat
deriving DecidableEq, Repr

/-- Configuration consumed by the cog (src lines 77-83). url_ok models the
external validators.url library and clean_url models the clean_url helper
(src lines 24-29), which is a thin wrapper over the external urllib parser;
both are abstract parameters of the model, the theorems hold for every
instantiation. -/
structure Config where
  max_characters_per_pool : Nat
  min_level : Int
  max_level : Int
  url_ok : String → Bool
  clean_url : String → Option String

/-- A Python value passed through **kwargs: an int or a str. -/
inductive PyVal where
  | int (n : Int)
  | str (s : String)
deriving DecidableEq, Repr

/-- Python str(v). -/
def pyStr : PyVal → String
  | .int n => toString n
  | .str s => s

/-- ASCII lowercase of one character (the case mapping Lean itself applies;
kernel-computable, unlike String.toLower whose mapAux does not reduce). -/
def charLower (c : Char) : Char :=
  if 65 ≤ c.toNat ∧ c.toNat ≤ 90 then Char.ofNat (c.toNat + 32) else c

/-- Python str.lower (ASCII case mapping). -/
def strLower (s : String) : String := ⟨s.data.map charLower⟩

/-- Python int(v); none models the ValueError raised on a non-numeric
string. -/
def pyIntOpt : PyVal → Option Int
  | .int n => some n
  | .str s => s.toInt?

/-- Result shape of fetch (src line 192): the row itself when exactly one row
matched, the row list otherwise. -/
inductive FetchResult (α : Type) where
  | one (row : α)
  | many (rows : List α)

/-- Shape of result[0] if len(result) == 1 else list(result) (src line 192). -/
def fetchShape {α : Type} : List α → FetchResult α
  | [x] => .one x
  | l => .many l

/- ------------------------------------------------------------------
Data-access layer: connections and commit (src lines 194-204).
The store commits a connection's executed statements only when COMMIT is
issued; an execution error does not discard the pending statements of the
connection (the spec's stated premise about the underlying store).
------------------------------------------------------------------ -/

/-- One SQL statement: whether its execution succeeds, and its effect on the
committed image of the store. -/
structure SqlStmt (σ : Type) where
  ok : Bool
  eff : σ → σ

/-- A pooled connection: the committed store image, and the composed effect of
statements executed but not yet committed. -/
structure Conn (σ : Type) where
  committed : σ
  pending : σ → σ

/-- Execute the statements of a group in order on one connection (the for-loop
of src lines 201-202). A failing statement raises: the already-executed
statements stay pending on the connection, the rest are not executed. -/
def execStmts {σ : Type} : Conn σ → List (SqlStmt σ) → Conn σ × Bool
  | c, [] => (c, true)
  | c, s :: rest =>
    if s.ok then execStmts { c with pending := s.eff ∘ c.pending } rest
    else (c, false)

/-- commit (src lines 194-204): execute every statement of the
semicolon-separated group, then conn.commit(). On a statement failure the
exception propagates; the source issues no rollback, so the connection keeps
its pending effects when it is released back to the pool. -/
def commit {σ : Type} (c : Conn σ) (stmts : List (SqlStmt σ)) : Conn σ × Option DbErr :=
  let r := execStmts c stmts
  if r.2 then ({ committed := r.1.pending r.1.committed, pending := fun x => x }, none)
  else (r.1, some (.pyError "OperationalError"))

/- ------------------------------------------------------------------
Connection pool manager: the retry-exhaustion handler
(_database_interaction, src lines 153-176).
------------------------------------------------------------------ -/

/-- Observable state of the pool manager relevant to a crash episode. -/
structure ManagerState where
  stable_set : Bool
  crash_recorded : Bool
  rebuilt : Bool
deriving DecidableEq, Repr

/-- The handler run when retries exhaust (src lines 159-166). The source
branches on if not self.stable_pool.is_set(): the arm that clears the flag
(a no-op, it is already clear there), records the crash time and awaits
_rebuild_pool is taken only when the flag is ALREADY clear. _rebuild_pool
(src lines 103-113) then closes the pool and calls
self._build_pool(self.credentials), but _build_pool takes no argument: the
TypeError is swallowed by the except arm, so stable_pool.set() at src line
109 is never reached — the flag stays clear and no rebuild completes. In the
other arm the source evaluates self.stable_pool.wait() without awaiting the
coroutine it returns, so nothing is waited on, nothing is recorded and no
rebuild runs. -/
def on_retries_exhausted (m : ManagerState) : ManagerState :=
  if m.stable_set = false then
    { stable_set := false, crash_recorded := true, rebuilt := false }
  else
    m

/- ------------------------------------------------------------------
Character/pool registry (src lines 207-389).
Each SQL statement of the source is translated to the corresponding list
operation on the state; a multi-statement commit group is one state
transition, matching the single conn.commit() of the data-access layer.
------------------------------------------------------------------ -/

/-- Rows of SELECT pool_id FROM acc_table WHERE account_id = X. -/
def pool_rows (db : DBState) (account_id : Int) : List Int :=
  (db.accounts.filter (fun a => a.account_id == account_id)).map (fun a => a.pool_id)

/-- add_pool_for_account (src lines 244-245): INSERT (account_id, account_id). -/
def add_pool_for_account (db : DBState) (account_id : Int) : DBState :=
  { db with accounts := db.accounts ++ [{ account_id := account_id, pool_id := account_id }] }

/-- get_pool_by_account (src lines 247-253): return the stored pool_id, else
insert a singleton pool row and return the account id. With several matching
rows (a state violating the one-row-per-account invariant) the source would
return the first raw row tuple; the model returns its pool_id field, and the
theorems that touch lookup exclude such states by hypothesis. -/
def get_pool_by_account (db : DBState) (account_id : Int) : Int × DBState :=
  match pool_rows db account_id with
  | [] => (account_id, add_pool_for_account db account_id)
  | p :: _ => (p, db)

/-- get_available_characters (src lines 255-262): all characters of the
account's pool (player_character construction preserves the row data). -/
def get_available_characters (db : DBState) (account_id : Int) : List CharRow × DBState :=
  let r := get_pool_by_account db account_id
  ((r.2.chars.filter (fun c => c.pool_id == r.1)), r.2)

/-- UPDATE char_table SET active_on_account = 0 WHERE active_on_account = A,
applied to one row. -/
def deact (account_id : Int) (c : CharRow) : CharRow :=
  if c.active_on_account == account_id then { c with active_on_account := 0 } else c

/-- add_character_to_db (src lines 370-389): capacity and duplicate checks
when the pool is nonempty, length check, default name, then one commit group
deactivating the prior active character and inserting the new active one, and
a fetch of the row now active for the account. Column defaults of the store's
schema are not in the source; they are modelled as zero/none, no claim
depends on them. -/
def add_character_to_db (cfg : Config) (db : DBState) (account_id : Int) (name : String) :
    Except DbErr (CharRow × DBState) :=
  let r := get_pool_by_account db account_id
  let pool_id := r.1
  let db1 := r.2
  let characters := (db1.chars.filter (fun c => c.pool_id == pool_id)).map
    (fun c => c.character_name)
  if characters.length ≠ 0 ∧ cfg.max_characters_per_pool ≤ characters.length then
    .error (.notifyUser "Reached character limit")
  else if characters.length ≠ 0 ∧ characters.contains (strLower name) then
    .error (.notifyUser "A character with the given name already exists")
  else if 32 < name.length then
    .error (.notifyUser "The desired name is too long. It needs to be 32 characters long or shorter.")
  else
    let name2 := if name = "" then "character" else name
    let newChar : CharRow :=
      { character_id := db1.next_char_id, character_name := strLower name2,
        character_color := none, character_image := none, total_xp := 0, roleplay_xp := 0,
        level := 0, level_notification := 0, words_cached := 0,
        owner_id := account_id, pool_id := pool_id, active_on_account := account_id }
    let db2 : DBState :=
      { db1 with
        chars := (db1.chars.map (deact account_id)) ++ [newChar],
        next_char_id := db1.next_char_id + 1 }
    match fetchShape (db2.chars.filter (fun c => c.active_on_account == account_id)) with
    | .one c => .ok (c, db2)
    | .many _ => .error (.pyError "player_character cannot unpack a row list")

/-- The accumulator loop of get_active_character (src lines 271-281): scan the
pool's characters, raising on a second character active for the account,
returning the single active one, or raising when none is active. -/
def find_active (account_id : Int) :
    List CharRow → Option CharRow → DBState → Except DbErr (CharRow × DBState)
  | [], none, _ => .error (.notifyUser "The account does not have any active characters")
  | [], some c, db => .ok (c, db)
  | c :: rest, acc, db =>
    if c.active_on_account == account_id then
      match acc with
      | some _ => .error (.notifyUser "The account has more than one active character")
      | none => find_active account_id rest (some c) db
    else find_active account_id rest acc db

/-- get_active_character (src lines 264-281): auto-create a default character
when the pool is empty, else scan for the unique active character. -/
def get_active_character (cfg : Config) (db : DBState) (account_id : Int) :
    Except DbErr (CharRow × DBState) :=
  let r := get_available_characters db account_id
  if r.1.length = 0 then add_character_to_db cfg r.2 account_id "character"
  else find_active account_id r.1 none r.2

/-- get_character (src lines 283-289): one matching row is returned as the
character; zero rows raise; with two or more rows both branches are skipped
and the function falls through, returning None. -/
def get_character (db : DBState) (account_id : Int) (name : String) :
    Except DbErr (Option CharRow × DBState) :=
  let r := get_pool_by_account db account_id
  let rows := r.2.chars.filter (fun c => c.pool_id == r.1 && c.character_name == name)
  match fetchShape rows with
  | .one c => .ok (some c, r.2)
  | .many l =>
    if l.length = 0 then .error (.notifyUser "The account does not have access to that character")
    else .ok (none, r.2)

/-- The per-row effect of the two UPDATE statements of
switch_active_character (src lines 295-296): first deactivate every character
active on the account, then activate every character of the pool bearing the
name. -/
def switchUpd (account_id pool_id : Int) (name : String) (c : CharRow) : CharRow :=
  let c1 := deact account_id c
  if c1.pool_id == pool_id && c1.character_name == name then
    { c1 with active_on_account := account_id }
  else c1

/-- switch_active_character (src lines 291-298): look the name up in the
account's pool, raise when absent, else run the two UPDATE statements as one
commit group. -/
def switch_active_character (db : DBState) (account_id : Int) (name : String) :
    Except DbErr DBState :=
  let r := get_pool_by_account db account_id
  let pool_id := r.1
  let db1 := r.2
  let char := (db1.chars.filter (fun c => c.pool_id == pool_id && c.character_name == name)).map
    (fun c => c.character_name)
  if char.isEmpty then
    .error (.notifyUser "The account does not have access to that character")
  else
    .ok { db1 with chars := db1.chars.map (switchUpd account_id pool_id name) }

/-- merge_pools (src lines 207-220): reject a self-merge, fetch the character
names of both pools, reject when the row count exceeds the limit or when the
name list has a repeat (len(c) != len(set(c))), else one commit group moving
every account row and every character row of pool a to pool b. -/
def merge_pools (cfg : Config) (db : DBState) (pool_a pool_b : Int) : Except DbErr DBState :=
  if pool_a = pool_b then .error (.notifyUser "Cannot merge the same pool.")
  else
    let c := (db.chars.filter (fun ch => ch.pool_id == pool_a || ch.pool_id == pool_b)).map
      (fun ch => ch.character_name)
    if cfg.max_characters_per_pool < c.length then
      .error (.notifyUser "Merging these two pools would exceed the character limit")
    else if c.length ≠ c.dedup.length then
      .error (.notifyUser "There are multiple characters with the same name in the pools you want to merge")
    else
      .ok { db with
        accounts := db.accounts.map
          (fun a => if a.pool_id == pool_a then { a with pool_id := pool_b } else a),
        chars := db.chars.map
          (fun ch => if ch.pool_id == pool_a then { ch with pool_id := pool_b } else ch) }

/-- The combined character-name list of two pools, lowercased: the claims
about merge_pools speak of case-insensitive duplication. -/
def mergeNames (db : DBState) (pool_a pool_b : Int) : List String :=
  (db.chars.filter (fun c => c.pool_id == pool_a || c.pool_id == pool_b)).map
    (fun c => strLower c.character_name)

/-- Data-model invariant: stored character names are lowercase (every write
path of the source lowercases the name before storing it). -/
abbrev lowercaseInv (db : DBState) : Prop :=
  ∀ c ∈ db.chars, strLower c.character_name = c.character_name

/-- Data-model invariant: at most one accounts row per account id. -/
abbrev accUnique (db : DBState) : Prop :=
  db.accounts.Pairwise (fun a b => a.account_id ≠ b.account_id)

/- ------------------------------------------------------------------
set_properties_of_character (src lines 300-368): a validated partial update.
The kwargs dict is modelled by the Kwargs structure of optional PyVal values
(unrecognized keys of the dict are ignored by the source and carry no
information). Each field is validated in source order; the first failing
field raises and nothing is written; the UPDATE statement is issued once at
the end when at least one change accumulated.
------------------------------------------------------------------ -/

/-- The keyword arguments recognized by set_properties_of_character. -/
structure Kwargs where
  character_name : Option PyVal := none
  character_color : Option PyVal := none
  character_image : Option PyVal := none
  total_xp : Option PyVal := none
  roleplay_xp : Option PyVal := none
  level : Option PyVal := none
  words_cached : Option PyVal := none
  level_notification : Option PyVal := none
  owner_id : Option PyVal := none
  pool_id : Option PyVal := none
  active_on_account : Option PyVal := none
deriving DecidableEq, Repr

/-- The accumulated changes dict: for the two clearable columns the inner
Option distinguishes SET NULL (some none) from SET value. -/
structure Changes where
  character_name : Option String := none
  character_color : Option (Option String) := none
  character_image : Option (Option String) := none
  total_xp : Option Int := none
  roleplay_xp : Option Int := none
  level : Option Int := none
  words_cached : Option Int := none
  level_notification : Option Int := none
  owner_id : Option Int := none
  pool_id : Option Int := none
  active_on_account : Option Int := none
deriving DecidableEq, Repr

/-- The single quote character. -/
def squote : Char := Char.ofNat 39

/-- The double quote character. -/
def dquote : Char := Char.ofNat 34

/-- Whether the first list is an initial segment of the second
(kernel-computable, structural). -/
def listPre : List Char → List Char → Bool
  | [], _ => true
  | _ :: _, [] => false
  | a :: xs, b :: ys => a == b && listPre xs ys

/-- Python str.removeprefix. -/
def cutPre (pre s : String) : String :=
  if listPre pre.data s.data then ⟨s.data.drop pre.data.length⟩ else s

/-- Python s[-n:]. -/
def lastChars (n : Nat) (s : String) : String := ⟨s.data.drop (s.data.length - n)⟩

/-- Python c in s for a single character (kernel-computable, unlike
String.contains whose position loop does not reduce). -/
def strHasChar (s : String) (c : Char) : Bool := s.data.contains c

/-- A hexadecimal digit. -/
def hexDigit (c : Char) : Bool :=
  c.isDigit || (Char.ofNat 97 ≤ c && c ≤ Char.ofNat 102) || (Char.ofNat 65 ≤ c && c ≤ Char.ofNat 70)

/-- Whether int(s, 16) succeeds: a nonempty string of hex digits. -/
def hexLit (s : String) : Bool := !s.data.isEmpty && s.data.all hexDigit

/-- Python v.lower() in ("none", "null"). -/
def isNoneNull (s : String) : Bool := strLower s == "none" || strLower s == "null"

/-- The name rule (src lines 304-309): at most 32 characters, no quote
characters. -/
def nameTest (v : PyVal) : Bool :=
  decide ((pyStr v).length ≤ 32) && !(strHasChar (pyStr v) dquote) && !(strHasChar (pyStr v) squote)

/-- character_name validation step (src lines 304-309). -/
def stepName (kw : Kwargs) (ch : Changes) : Except DbErr Changes :=
  match kw.character_name with
  | none => .ok ch
  | some v =>
    if nameTest v then .ok { ch with character_name := some (strLower (pyStr v)) }
    else .error (.notifyUser "The specified name needs to be 32 characters or less and cannot contain quote characters")

/-- character_color validation step (src lines 310-320): clear on none/null,
else strip an optional 0x or a hash, require a hex literal, keep the last six
digits. A non-string value raises AttributeError at the lower() call. -/
def stepColor (kw : Kwargs) (ch : Changes) : Except DbErr Changes :=
  match kw.character_color with
  | none => .ok ch
  | some (.int _) => .error (.pyError "AttributeError: int has no attribute lower")
  | some (.str s) =>
    if isNoneNull s then .ok { ch with character_color := some none }
    else
      let c := cutPre "#" (cutPre "0x" s)
      if hexLit c then .ok { ch with character_color := some (some (lastChars 6 c)) }
      else .error (.notifyUser "The specified color is not a valid hex code.")

/-- character_image validation step (src lines 321-333): clear on none/null,
else clean the url and require validators.url to accept it. -/
def stepImage (cfg : Config) (kw : Kwargs) (ch : Changes) : Except DbErr Changes :=
  match kw.character_image with
  | none => .ok ch
  | some (.int _) => .error (.pyError "AttributeError: int has no attribute lower")
  | some (.str s) =>
    if isNoneNull s then .ok { ch with character_image := some none }
    else
      match cfg.clean_url s with
      | none => .error (.notifyUser "Invalid url")
      | some url =>
        if cfg.url_ok url then .ok { ch with character_image := some (some url) }
        else .error (.notifyUser "Invalid url")

/-- total_xp validation step (src lines 334-338): an int, at least zero. -/
def stepTotalXp (kw : Kwargs) (ch : Changes) : Except DbErr Changes :=
  match kw.total_xp with
  | none => .ok ch
  | some (.int n) =>
    if 0 ≤ n then .ok { ch with total_xp := some n }
    else .error (.notifyUser "Invalid value for total_xp")
  | some (.str _) => .error (.notifyUser "Invalid value for total_xp")

/-- roleplay_xp validation step (src lines 339-343). -/
def stepRoleplayXp (kw : Kwargs) (ch : Changes) : Except DbErr Changes :=
  match kw.roleplay_xp with
  | none => .ok ch
  | some (.int n) =>
    if 0 ≤ n then .ok { ch with roleplay_xp := some n }
    else .error (.notifyUser "Invalid value for roleplay_xp")
  | some (.str _) => .error (.notifyUser "Invalid value for roleplay_xp")

/-- level validation step (src lines 344-348): an int inside the configured
level range. -/
def stepLevel (cfg : Config) (kw : Kwargs) (ch : Changes) : Except DbErr Changes :=
  match kw.level with
  | none => .ok ch
  | some (.int n) =>
    if cfg.min_level ≤ n ∧ n ≤ cfg.max_level then .ok { ch with level := some n }
    else .error (.notifyUser "Invalid value for level")
  | some (.str _) => .error (.notifyUser "Invalid value for level")

/-- words_cached validation step (src lines 349-353). -/
def stepWordsCached (kw : Kwargs) (ch : Changes) : Except DbErr Changes :=
  match kw.words_cached with
  | none => .ok ch
  | some (.int n) =>
    if 0 ≤ n then .ok { ch with words_cached := some n }
    else .error (.notifyUser "Invalid value for words_cached")
  | some (.str _) => .error (.notifyUser "Invalid value for words_cached")

/-- level_notification validation step (src lines 354-358): an int equal to 0
or 1. -/
def stepNotif (kw : Kwargs) (ch : Changes) : Except DbErr Changes :=
  match kw.level_notification with
  | none => .ok ch
  | some (.int n) =>
    if n = 0 ∨ n = 1 then .ok { ch with level_notification := some n }
    else .error (.notifyUser "Invalid value for level_notification")
  | some (.str _) => .error (.notifyUser "Invalid value for level_notification")

/-- owner_id step (src line 360): int(v), unchecked against existence. -/
def stepOwner (kw : Kwargs) (ch : Changes) : Except DbErr Changes :=
  match kw.owner_id with
  | none => .ok ch
  | some v =>
    match pyIntOpt v with
    | some n => .ok { ch with owner_id := some n }
    | none => .error (.pyError "ValueError: invalid literal for int")

/-- pool_id step (src line 361). -/
def stepPool (kw : Kwargs) (ch : Changes) : Except DbErr Changes :=
  match kw.pool_id with
  | none => .ok ch
  | some v =>
    match pyIntOpt v with
    | some n => .ok { ch with pool_id := some n }
    | none => .error (.pyError "ValueError: invalid literal for int")

/-- active_on_account step (src line 362). -/
def stepActive (kw : Kwargs) (ch : Changes) : Except DbErr Changes :=
  match kw.active_on_account with
  | none => .ok ch
  | some v =>
    match pyIntOpt v with
    | some n => .ok { ch with active_on_account := some n }
    | none => .error (.pyError "ValueError: invalid literal for int")

/-- Python dict truthiness of changes (src line 364). -/
def isEmptyChanges (ch : Changes) : Bool :=
  ch.character_name.isNone && ch.character_color.isNone && ch.character_image.isNone &&
  ch.total_xp.isNone && ch.roleplay_xp.isNone && ch.level.isNone && ch.words_cached.isNone &&
  ch.level_notification.isNone && ch.owner_id.isNone && ch.pool_id.isNone &&
  ch.active_on_account.isNone

/-- Apply the accumulated changes to one row, as the single UPDATE statement
of src line 365 does. -/
def applyChanges (ch : Changes) (c : CharRow) : CharRow :=
  { c with
    character_name := ch.character_name.getD c.character_name,
    character_color := ch.character_color.getD c.character_color,
    character_image := ch.character_image.getD c.character_image,
    total_xp := ch.total_xp.getD c.total_xp,
    roleplay_xp := ch.roleplay_xp.getD c.roleplay_xp,
    level := ch.level.getD c.level,
    level_notification := ch.level_notification.getD c.level_notification,
    words_cached := ch.words_cached.getD c.words_cached,
    owner_id := ch.owner_id.getD c.owner_id,
    pool_id := ch.pool_id.getD c.pool_id,
    active_on_account := ch.active_on_account.getD c.active_on_account }

/-- set_properties_of_character (src lines 300-368): validate every supplied
field in source order, then either raise on an empty changes dict or issue
the single UPDATE statement for the character. -/
def set_properties_of_character (cfg : Config) (db : DBState) (character_id : Nat)
    (kw : Kwargs) : Except DbErr DBState :=
  (stepName kw { } >>= stepColor kw >>= stepImage cfg kw >>= stepTotalXp kw >>=
    stepRoleplayXp kw >>= stepLevel cfg kw >>= stepWordsCached kw >>= stepNotif kw >>=
    stepOwner kw >>= stepPool kw >>= stepActive kw) >>= fun ch =>
      if isEmptyChanges ch then .error (.notifyUser "No valid changes given")
      else
        let upd := fun c => if c.character_id == character_id then applyChanges ch c else c
        .ok { db with chars := db.chars.map upd }

/-- Whether the character_name field of the kwargs, when supplied, passes its
rule. -/
def nameValid (kw : Kwargs) : Bool :=
  match kw.character_name with
  | none => true
  | some v => nameTest v

/-- Whether the character_color field, when supplied, passes its rule. -/
def colorValid (kw : Kwargs) : Bool :=
  match kw.character_color with
  | none => true
  | some (.int _) => false
  | some (.str s) => isNoneNull s || hexLit (cutPre "#" (cutPre "0x" s))

/-- Whether the character_image field, when supplied, passes its rule. -/
def imageValid (cfg : Config) (kw : Kwargs) : Bool :=
  match kw.character_image with
  | none => true
  | some (.int _) => false
  | some (.str s) =>
    isNoneNull s ||
      (match cfg.clean_url s with
       | none => false
       | some url => cfg.url_ok url)

/-- Whether a nonnegative-int field value passes its rule. -/
def nonnegTest : PyVal → Bool
  | .int n => decide (0 ≤ n)
  | .str _ => false

/-- Whether the total_xp field, when supplied, passes its rule. -/
def totalXpValid (kw : Kwargs) : Bool :=
  match kw.total_xp with
  | none => true
  | some v => nonnegTest v

/-- Whether the roleplay_xp field, when supplied, passes its rule. -/
def roleplayXpValid (kw : Kwargs) : Bool :=
  match kw.roleplay_xp with
  | none => true
  | some v => nonnegTest v

/-- Whether the level field, when supplied, passes its rule. -/
def levelValid (cfg : Config) (kw : Kwargs) : Bool :=
  match kw.level with
  | none => true
  | some (.int n) => decide (cfg.min_level ≤ n ∧ n ≤ cfg.max_level)
  | some (.str _) => false

/-- Whether the words_cached field, when supplied, passes its rule. -/
def wordsCachedValid (kw : Kwargs) : Bool :=
  match kw.words_cached with
  | none => true
  | some v => nonnegTest v

/-- Whether the level_notification field, when supplied, passes its rule. -/
def notifValid (kw : Kwargs) : Bool :=
  match kw.level_notification with
  | none => true
  | some (.int n) => decide (n = 0 ∨ n = 1)
  | some (.str _) => false

/-- Whether the owner_id field, when supplied, converts with int(). -/
def ownerValid (kw : Kwargs) : Bool :=
  match kw.owner_id with
  | none => true
  | some v => (pyIntOpt v).isSome

/-- Whether the pool_id field, when supplied, converts with int(). -/
def poolValid (kw : Kwargs) : Bool :=
  match kw.pool_id with
  | none => true
  | some v => (pyIntOpt v).isSome

/-- Whether the active_on_account field, when supplied, converts with
int(). -/
def activeValid (kw : Kwargs) : Bool :=
  match kw.active_on_account with
  | none => true
  | some v => (pyIntOpt v).isSome

/-- Whether every supplied field of the kwargs passes its rule. -/
def kwAllValid (cfg : Config) (kw : Kwargs) : Bool :=
  nameValid kw && colorValid kw && imageValid cfg kw && totalXpValid kw &&
  roleplayXpValid kw && levelValid cfg kw && wordsCachedValid kw && notifValid kw &&
  ownerValid kw && poolValid kw && activeValid kw

/- ------------------------------------------------------------------
Permission resolver (xp_system.__init__, src lines 401-414): fixed-point
expansion of composite permissions into base permissions.
------------------------------------------------------------------ -/

/-- Set union on duplicate-free lists (Python set.union). -/
def setUnion (xs ys : List String) : List String :=
  xs ++ ys.filter (fun y => !xs.contains y)

/-- Set difference (Python set.difference). -/
def setDiff (xs ys : List String) : List String :=
  xs.filter (fun x => !ys.contains x)

/-- The body of the while loop (src lines 408-410): for each unresolved
permission, remove it from the set and union in its expansion. -/
def resolve_body (nested : String → List String) (perms unresolved : List String) :
    List String :=
  unresolved.foldl (fun ps c => setUnion (ps.erase c) (nested c)) perms

/-- The while loop of src lines 407-412, indexed by fuel: none means the loop
is still running after the given number of iterations. The source has no
cycle detection and no iteration bound. -/
def resolve_loop (nested : String → List String) (base : List String) :
    Nat → List String → Option (List String)
  | 0, _ => none
  | fuel + 1, perms =>
    let unresolved := setDiff perms base
    if unresolved.isEmpty then some perms
    else resolve_loop nested base fuel (resolve_body nested perms unresolved)

/-- A cyclic nested_permissions mapping: permission a expands to itself. -/
def nestedCyclic : String → List String :=
  fun c => if c = "a" then ["a"] else []

/- ------------------------------------------------------------------
Concrete states and inputs used by the witnesses and counterexamples.
------------------------------------------------------------------ -/

/-- A character row with the column defaults of the model. -/
def mkChar (cid : Nat) (name : String) (owner pool active : Int) : CharRow :=
  { character_id := cid, character_name := name, character_color := none,
    character_image := none, total_xp := 0, roleplay_xp := 0, level := 0,
    level_notification := 0, words_cached := 0, owner_id := owner, pool_id := pool,
    active_on_account := active }

/-- A concrete configuration: limit 5 characters per pool, levels 1 to 20,
every url accepted. -/
def cfg0 : Config :=
  { max_characters_per_pool := 5, min_level := 1, max_level := 20,
    url_ok := fun _ => true, clean_url := fun s => some s }

/-- The empty store. -/
def dbEmpty : DBState := { accounts := [], chars := [], next_char_id := 1 }

/-- Pools 5 and 7 each hold a character named aria (the duplicate-merge
example of the spec). -/
def dbMergeDup : DBState :=
  { accounts := [{ account_id := 5, pool_id := 5 }, { account_id := 7, pool_id := 7 }],
    chars := [mkChar 1 "aria" 5 5 5, mkChar 2 "aria" 7 7 7], next_char_id := 3 }

/-- Pool 5 holds aria, pool 7 holds brim: a mergeable pair. -/
def dbMergeOk : DBState :=
  { accounts := [{ account_id := 5, pool_id := 5 }, { account_id := 7, pool_id := 7 }],
    chars := [mkChar 1 "aria" 5 5 5, mkChar 2 "brim" 7 7 7], next_char_id := 3 }

/-- Account 7 has two characters in its pool, both marked active for it: an
invariant-violating store. -/
def dbTwoActive : DBState :=
  { accounts := [{ account_id := 7, pool_id := 7 }],
    chars := [mkChar 1 "aria" 7 7 7, mkChar 2 "brim" 7 7 7], next_char_id := 3 }

/-- Account 7 has characters aria (inactive) and brim (active) in its pool. -/
def dbSwitch : DBState :=
  { accounts := [{ account_id := 7, pool_id := 7 }],
    chars := [mkChar 1 "aria" 7 7 0, mkChar 2 "brim" 7 7 7], next_char_id := 3 }

/-- Account 5 has two characters of the same name aria in its pool: the
ambiguous-lookup store for get_character. -/
def dbDupInPool : DBState :=
  { accounts := [{ account_id := 5, pool_id := 5 }],
    chars := [mkChar 1 "aria" 5 5 0, mkChar 2 "aria" 5 5 0], next_char_id := 3 }

/-- A patch with a valid name and an out-of-range level (the all-or-nothing
example of the spec). -/
def kwBadLevel : Kwargs :=
  { character_name := some (.str "aria"), level := some (.int 999) }

/- ==================================================================
Theorems.
================================================================== -/

/-- Decompose a successful Except bind. -/
theorem bind_ok_elim {α β : Type} {x : Except DbErr α} {f : α → Except DbErr β} {b : β}
    (h : x >>= f = Except.ok b) : ∃ a, x = Except.ok a ∧ f a = Except.ok b := by
  cases x with
  | error e => simp [Bind.bind, Except.bind] at h
  | ok a => exact ⟨a, rfl, by simpa [Bind.bind, Except.bind] using h⟩

/-- C1: the claim reads that commit is atomic with an explicit rollback on
partial failure, so that no prefix of a failed statement group is ever
persisted. The source issues no rollback (src lines 194-204): after a group
whose second statement fails, the executed prefix stays pending on the pooled
connection, and the next successful commit on that connection persists it
(here the increment of the failed group reaches the committed store). -/
theorem commit_no_rollback_persists_partial_group :
    (commit { committed := (0 : Int), pending := fun x => x }
        [{ ok := true, eff := fun n => n + 1 }, { ok := false, eff := fun x => x }]).2.isSome
      = true ∧
    (commit (commit { committed := (0 : Int), pending := fun x => x }
        [{ ok := true, eff := fun n => n + 1 }, { ok := false, eff := fun x => x }]).1
        [{ ok := true, eff := fun x => x }]).1.committed = 1 := by
  constructor <;> rfl

/-- C2: the claim reads that a caller exhausting retries while the readiness
signal is still set performs the crash transition and rebuild (re-asserting
readiness), and a caller arriving when the manager is already not-ready only
waits. The source guard (src line 160) is inverted: with the flag still set
nothing is recorded and no rebuild runs (first conjunct). And the arm that is
supposed to rebuild — reachable only with the flag already clear — records
the crash but completes no rebuild: _rebuild_pool swallows the TypeError from
self._build_pool(self.credentials) before stable_pool.set() is reached, so
readiness is never re-asserted (second conjunct). No caller ever completes
the claimed crash-transition-and-rebuild sequence. -/
theorem retries_exhaust_readiness_gate_inverted :
    on_retries_exhausted { stable_set := true, crash_recorded := false, rebuilt := false } =
      { stable_set := true, crash_recorded := false, rebuilt := false } ∧
    on_retries_exhausted { stable_set := false, crash_recorded := false, rebuilt := false } =
      { stable_set := false, crash_recorded := true, rebuilt := false } := by
  constructor <;> rfl

/-- C9: the claim reads that the permission resolver detects and rejects
cyclic expansions instead of looping forever. On the cyclic mapping where a
expands to itself (with a not a base permission) each iteration of the while
body maps the set back to itself, so the loop never finishes for any number
of iterations: the resolver diverges instead of rejecting the cycle. -/
theorem permission_resolver_loops_on_cycle :
    ∀ fuel : Nat, resolve_loop nestedCyclic [] fuel ["a"] = none := by
  intro fuel
  induction fuel with
  | zero => rfl
  | succ n ih => exact ih

/-- C5 counterexample: with two characters of account 7 both marked active,
get_active_character raises the user-facing notifyUserException class (the
same class used for input-validation errors), not an error surfaced
distinctly from user-facing errors as the claim states. -/
theorem get_active_multi_active_is_user_facing :
    get_active_character cfg0 dbTwoActive 7 =
      .error (.notifyUser "The account has more than one active character") ∧
    DbErr.isUserFacing (.notifyUser "The account has more than one active character") = true := by
  constructor <;> rfl

/-- The pool lookup is stable: calling it again on the state it returned
yields the same pool id and performs no further mutation. -/
theorem get_pool_twice (db : DBState) (X : Int) :
    get_pool_by_account (get_pool_by_account db X).2 X =
      ((get_pool_by_account db X).1, (get_pool_by_account db X).2) := by
  rcases hrows : pool_rows db X with _ | ⟨p, rest⟩
  · have hfil : db.accounts.filter (fun a => a.account_id == X) = [] := by
      have := hrows
      unfold pool_rows at this
      exact List.map_eq_nil_iff.mp this
    simp [get_pool_by_account, hrows, pool_rows, add_pool_for_account,
      List.filter_append, hfil]
  · simp [get_pool_by_account, hrows]

/-- C8: a pool lookup for a previously unseen account returns the account id
itself as the pool id, creates exactly one singleton pool row for it, and a
second lookup returns the same pool id while leaving the state untouched. -/
theorem get_pool_by_account_singleton_created_once (db : DBState) (X : Int)
    (h : db.accounts.filter (fun a => a.account_id == X) = []) :
    (get_pool_by_account db X).1 = X ∧
    (get_pool_by_account db X).2.accounts.filter (fun a => a.account_id == X) =
      [{ account_id := X, pool_id := X }] ∧
    get_pool_by_account (get_pool_by_account db X).2 X = (X, (get_pool_by_account db X).2) := by
  have hrows : pool_rows db X = [] := by simp [pool_rows, h]
  have h1 : (get_pool_by_account db X).1 = X := by simp [get_pool_by_account, hrows]
  refine ⟨h1, ?_, ?_⟩
  · simp [get_pool_by_account, hrows, add_pool_for_account, List.filter_append, h]
  · rw [get_pool_twice db X, h1]

/-- C8 witness: account 7 has never been seen in the empty store. -/
theorem get_pool_by_account_singleton_created_once_witness :
    dbEmpty.accounts.filter (fun a => a.account_id == 7) = [] ∧
    ((get_pool_by_account dbEmpty 7).1 = 7 ∧
      (get_pool_by_account dbEmpty 7).2.accounts.filter (fun a => a.account_id == 7) =
        [{ account_id := 7, pool_id := 7 }] ∧
      get_pool_by_account (get_pool_by_account dbEmpty 7).2 7 =
        (7, (get_pool_by_account dbEmpty 7).2)) :=
  ⟨by decide, get_pool_by_account_singleton_created_once dbEmpty 7 (by decide)⟩

/-- C10: when two or more rows of the account's pool bear the requested name,
get_character neither raises nor returns a character: the single-row branch
and the empty branch are both skipped and the source falls through,
returning None. -/
theorem get_character_multi_row_returns_none (db : DBState) (account : Int) (name : String)
    (h : 2 ≤ ((get_pool_by_account db account).2.chars.filter
        (fun c => c.pool_id == (get_pool_by_account db account).1 &&
          c.character_name == name)).length) :
    get_character db account name = .ok (none, (get_pool_by_account db account).2) := by
  simp only [get_character]
  rcases hrows : ((get_pool_by_account db account).2.chars.filter
      (fun c => c.pool_id == (get_pool_by_account db account).1 &&
        c.character_name == name)) with _ | ⟨x, _ | ⟨y, t⟩⟩
  · rw [hrows] at h; simp at h
  · rw [hrows] at h; simp at h
  · rw [hrows]; simp [fetchShape]

/-- C10 witness: account 5 has two characters named aria in its pool. -/
theorem get_character_multi_row_returns_none_witness :
    2 ≤ ((get_pool_by_account dbDupInPool 5).2.chars.filter
        (fun c => c.pool_id == (get_pool_by_account dbDupInPool 5).1 &&
          c.character_name == "aria")).length ∧
    get_character dbDupInPool 5 "aria" = .ok (none, (get_pool_by_account dbDupInPool 5).2) :=
  ⟨by decide, get_character_multi_row_returns_none dbDupInPool 5 "aria" (by decide)⟩

/-- A list with a repeat has a strictly shorter dedup, so the set-size test of
merge_pools fires. -/
theorem dedup_length_ne {l : List String} (h : ¬ l.Nodup) : l.length ≠ l.dedup.length := by
  intro heq
  apply h
  have hsub := List.dedup_sublist l
  have heq2 : l.dedup = l := hsub.eq_of_length heq.symm
  rw [← heq2]
  exact List.nodup_dedup l

/-- Under the stored-lowercase invariant the lowercased name list of the two
pools coincides with the raw name list the source compares. -/
theorem mergeNames_eq_names {db : DBState} (hlow : lowercaseInv db) (a b : Int) :
    mergeNames db a b =
      (db.chars.filter (fun ch => ch.pool_id == a || ch.pool_id == b)).map
        (fun ch => ch.character_name) := by
  unfold mergeNames
  apply List.map_congr_left
  intro c hc
  exact hlow c (List.mem_of_mem_filter hc)

/-- C3: when the combined character set of the two pools repeats a
case-insensitive name (stored names being lowercase), merge_pools raises a
user-facing validation error; no commit group is reached, so the store is
untouched. -/
theorem merge_pools_duplicate_name_rejected (cfg : Config) (db : DBState) (a b : Int)
    (hlow : lowercaseInv db) (hdup : ¬ (mergeNames db a b).Nodup) :
    ∃ e, merge_pools cfg db a b = .error e ∧ DbErr.isUserFacing e = true := by
  simp only [merge_pools]
  split_ifs with hab hcap hdupl
  · exact ⟨_, rfl, rfl⟩
  · exact ⟨_, rfl, rfl⟩
  · exact ⟨_, rfl, rfl⟩
  · exfalso
    apply hdupl
    apply dedup_length_ne
    rw [← mergeNames_eq_names hlow a b]
    exact hdup

/-- C3 witness: pools 5 and 7 each hold a character named aria. -/
theorem merge_pools_duplicate_name_rejected_witness :
    lowercaseInv dbMergeDup ∧ ¬ (mergeNames dbMergeDup 5 7).Nodup ∧
    ∃ e, merge_pools cfg0 dbMergeDup 5 7 = .error e ∧ DbErr.isUserFacing e = true :=
  ⟨by decide, by decide,
    merge_pools_duplicate_name_rejected cfg0 dbMergeDup 5 7 (by decide) (by decide)⟩

/-- C6: for two distinct pools whose combined name set fits the limit and has
no case-insensitive repeat (stored names being lowercase), merge_pools
succeeds, and the resulting state is exactly the input with every account row
and every character row of pool a reassigned to pool b, produced by the
operation as a single commit group. -/
theorem merge_pools_success_reassigns_all (cfg : Config) (db : DBState) (a b : Int)
    (hab : a ≠ b) (hlow : lowercaseInv db) (hnd : (mergeNames db a b).Nodup)
    (hlen : (mergeNames db a b).length ≤ cfg.max_characters_per_pool) :
    merge_pools cfg db a b = .ok { db with
      accounts := db.accounts.map
        (fun r => if r.pool_id == a then { r with pool_id := b } else r),
      chars := db.chars.map
        (fun r => if r.pool_id == a then { r with pool_id := b } else r) } := by
  have hcn : (db.chars.filter (fun ch => ch.pool_id == a || ch.pool_id == b)).map
      (fun ch => ch.character_name) = mergeNames db a b :=
    (mergeNames_eq_names hlow a b).symm
  simp only [merge_pools]
  rw [if_neg hab, hcn]
  rw [if_neg (Nat.not_lt.mpr hlen)]
  rw [if_neg (fun hne => hne (by rw [List.dedup_eq_self.mpr hnd]))]

/-- C6 witness: pool 5 holds aria, pool 7 holds brim, limit 5. -/
theorem merge_pools_success_reassigns_all_witness :
    (5 : Int) ≠ 7 ∧ lowercaseInv dbMergeOk ∧ (mergeNames dbMergeOk 5 7).Nodup ∧
    (mergeNames dbMergeOk 5 7).length ≤ cfg0.max_characters_per_pool ∧
    merge_pools cfg0 dbMergeOk 5 7 = .ok { dbMergeOk with
      accounts := dbMergeOk.accounts.map
        (fun r => if r.pool_id == 5 then { r with pool_id := 7 } else r),
      chars := dbMergeOk.chars.map
        (fun r => if r.pool_id == 5 then { r with pool_id := 7 } else r) } :=
  ⟨by decide, by decide, by decide, by decide,
    merge_pools_success_reassigns_all cfg0 dbMergeOk 5 7 (by decide) (by decide)
      (by decide) (by decide)⟩

/-- A successful name step means the name field passed its rule. -/
theorem stepName_ok_valid {kw : Kwargs} {ch ch' : Changes}
    (h : stepName kw ch = .ok ch') : nameValid kw = true := by
  unfold stepName at h
  unfold nameValid
  cases hk : kw.character_name with
  | none => rfl
  | some v =>
    rw [hk] at h
    dsimp only at h ⊢
    cases ht : nameTest v
    · rw [ht] at h; simp at h
    · rfl

/-- A successful color step means the color field passed its rule. -/
theorem stepColor_ok_valid {kw : Kwargs} {ch ch' : Changes}
    (h : stepColor kw ch = .ok ch') : colorValid kw = true := by
  unfold stepColor at h
  unfold colorValid
  cases hk : kw.character_color with
  | none => rfl
  | some v =>
    rw [hk] at h
    cases v with
    | int n => simp at h
    | str s =>
      dsimp only at h ⊢
      cases hnn : isNoneNull s
      · rw [hnn] at h
        simp only [Bool.false_eq_true, if_false] at h
        cases hx : hexLit (cutPre "#" (cutPre "0x" s))
        · rw [hx] at h; simp at h
        · simp
      · simp

/-- A successful image step means the image field passed its rule. -/
theorem stepImage_ok_valid {cfg : Config} {kw : Kwargs} {ch ch' : Changes}
    (h : stepImage cfg kw ch = .ok ch') : imageValid cfg kw = true := by
  unfold stepImage at h
  unfold imageValid
  cases hk : kw.character_image with
  | none => rfl
  | some v =>
    rw [hk] at h
    cases v with
    | int n => simp at h
    | str s =>
      dsimp only at h ⊢
      cases hnn : isNoneNull s
      · rw [hnn] at h
        simp only [Bool.false_eq_true, if_false] at h
        cases hcu : cfg.clean_url s with
        | none => rw [hcu] at h; simp at h
        | some url =>
          rw [hcu] at h
          dsimp only at h ⊢
          cases hok : cfg.url_ok url
          · rw [hok] at h; simp at h
          · simp
      · simp

/-- A successful total_xp step means the field passed its rule. -/
theorem stepTotalXp_ok_valid {kw : Kwargs} {ch ch' : Changes}
    (h : stepTotalXp kw ch = .ok ch') : totalXpValid kw = true := by
  unfold stepTotalXp at h
  unfold totalXpValid
  cases hk : kw.total_xp with
  | none => rfl
  | some v =>
    rw [hk] at h
    cases v with
    | int n =>
      dsimp only at h ⊢
      by_cases hn : 0 ≤ n
      · simp [nonnegTest, hn]
      · rw [if_neg hn] at h; simp at h
    | str s => simp at h

/-- A successful roleplay_xp step means the field passed its rule. -/
theorem stepRoleplayXp_ok_valid {kw : Kwargs} {ch ch' : Changes}
    (h : stepRoleplayXp kw ch = .ok ch') : roleplayXpValid kw = true := by
  unfold stepRoleplayXp at h
  unfold roleplayXpValid
  cases hk : kw.roleplay_xp with
  | none => rfl
  | some v =>
    rw [hk] at h
    cases v with
    | int n =>
      dsimp only at h ⊢
      by_cases hn : 0 ≤ n
      · simp [nonnegTest, hn]
      · rw [if_neg hn] at h; simp at h
    | str s => simp at h

/-- A successful level step means the field passed its rule. -/
theorem stepLevel_ok_valid {cfg : Config} {kw : Kwargs} {ch ch' : Changes}
    (h : stepLevel cfg kw ch = .ok ch') : levelValid cfg kw = true := by
  unfold stepLevel at h
  unfold levelValid
  cases hk : kw.level with
  | none => rfl
  | some v =>
    rw [hk] at h
    cases v with
    | int n =>
      dsimp only at h ⊢
      by_cases hn : cfg.min_level ≤ n ∧ n ≤ cfg.max_level
      · simp [hn]
      · rw [if_neg hn] at h; simp at h
    | str s => simp at h

/-- A successful words_cached step means the field passed its rule. -/
theorem stepWordsCached_ok_valid {kw : Kwargs} {ch ch' : Changes}
    (h : stepWordsCached kw ch = .ok ch') : wordsCachedValid kw = true := by
  unfold stepWordsCached at h
  unfold wordsCachedValid
  cases hk : kw.words_cached with
  | none => rfl
  | some v =>
    rw [hk] at h
    cases v with
    | int n =>
      dsimp only at h ⊢
      by_cases hn : 0 ≤ n
      · simp [nonnegTest, hn]
      · rw [if_neg hn] at h; simp at h
    | str s => simp at h

/-- A successful level_notification step means the field passed its rule. -/
theorem stepNotif_ok_valid {kw : Kwargs} {ch ch' : Changes}
    (h : stepNotif kw ch = .ok ch') : notifValid kw = true := by
  unfold stepNotif at h
  unfold notifValid
  cases hk : kw.level_notification with
  | none => rfl
  | some v =>
    rw [hk] at h
    cases v with
    | int n =>
      dsimp only at h ⊢
      by_cases hn : n = 0 ∨ n = 1
      · simp [hn]
      · rw [if_neg hn] at h; simp at h
    | str s => simp at h

/-- A successful owner_id step means int() accepted the value. -/
theorem stepOwner_ok_valid {kw : Kwargs} {ch ch' : Changes}
    (h : stepOwner kw ch = .ok ch') : ownerValid kw = true := by
  unfold stepOwner at h
  unfold ownerValid
  cases hk : kw.owner_id with
  | none => rfl
  | some v =>
    rw [hk] at h
    dsimp only at h ⊢
    cases hv : pyIntOpt v with
    | none => rw [hv] at h; simp at h
    | some n => simp [hv]

/-- A successful pool_id step means int() accepted the value. -/
theorem stepPool_ok_valid {kw : Kwargs} {ch ch' : Changes}
    (h : stepPool kw ch = .ok ch') : poolValid kw = true := by
  unfold stepPool at h
  unfold poolValid
  cases hk : kw.pool_id with
  | none => rfl
  | some v =>
    rw [hk] at h
    dsimp only at h ⊢
    cases hv : pyIntOpt v with
    | none => rw [hv] at h; simp at h
    | some n => simp [hv]

/-- A successful active_on_account step means int() accepted the value. -/
theorem stepActive_ok_valid {kw : Kwargs} {ch ch' : Changes}
    (h : stepActive kw ch = .ok ch') : activeValid kw = true := by
  unfold stepActive at h
  unfold activeValid
  cases hk : kw.active_on_account with
  | none => rfl
  | some v =>
    rw [hk] at h
    dsimp only at h ⊢
    cases hv : pyIntOpt v with
    | none => rw [hv] at h; simp at h
    | some n => simp [hv]

/-- A successful update means every supplied field passed its rule: the
validation chain runs to completion before the UPDATE statement is built. -/
theorem set_properties_ok_valid {cfg : Config} {db : DBState} {cid : Nat} {kw : Kwargs}
    {db' : DBState} (h : set_properties_of_character cfg db cid kw = .ok db') :
    kwAllValid cfg kw = true := by
  unfold set_properties_of_character at h
  obtain ⟨ch11, hch11, _⟩ := bind_ok_elim h
  obtain ⟨ch10, hch10, hs11⟩ := bind_ok_elim hch11
  obtain ⟨ch9, hch9, hs10⟩ := bind_ok_elim hch10
  obtain ⟨ch8, hch8, hs9⟩ := bind_ok_elim hch9
  obtain ⟨ch7, hch7, hs8⟩ := bind_ok_elim hch8
  obtain ⟨ch6, hch6, hs7⟩ := bind_ok_elim hch7
  obtain ⟨ch5, hch5, hs6⟩ := bind_ok_elim hch6
  obtain ⟨ch4, hch4, hs5⟩ := bind_ok_elim hch5
  obtain ⟨ch3, hch3, hs4⟩ := bind_ok_elim hch4
  obtain ⟨ch2, hch2, hs3⟩ := bind_ok_elim hch3
  obtain ⟨ch1, hs1, hs2⟩ := bind_ok_elim hch2
  unfold kwAllValid
  rw [stepName_ok_valid hs1, stepColor_ok_valid hs2, stepImage_ok_valid hs3,
    stepTotalXp_ok_valid hs4, stepRoleplayXp_ok_valid hs5, stepLevel_ok_valid hs6,
    stepWordsCached_ok_valid hs7, stepNotif_ok_valid hs8, stepOwner_ok_valid hs9,
    stepPool_ok_valid hs10, stepActive_ok_valid hs11]
  rfl

/-- C4: validation of a character patch is all-or-nothing. When any supplied
field fails its rule the whole update aborts and no UPDATE statement is
issued (the result is never a written state), and a patch supplying no field
at all is rejected with the no-changes error. -/
theorem set_properties_all_or_nothing (cfg : Config) (db : DBState) (cid : Nat)
    (kw : Kwargs) :
    (kwAllValid cfg kw = false →
      (set_properties_of_character cfg db cid kw).isOk = false) ∧
    (kw = { } → set_properties_of_character cfg db cid kw =
      .error (.notifyUser "No valid changes given")) := by
  constructor
  · intro hinv
    cases hres : set_properties_of_character cfg db cid kw with
    | error e => rfl
    | ok db' =>
      rw [set_properties_ok_valid hres] at hinv
      simp at hinv
  · intro hkw
    subst hkw
    rfl

/-- C4 witness: a valid name together with an out-of-range level commits
nothing. -/
theorem set_properties_all_or_nothing_witness :
    kwAllValid cfg0 kwBadLevel = false ∧
    (set_properties_of_character cfg0 dbEmpty 1 kwBadLevel).isOk = false :=
  ⟨by decide, (set_properties_all_or_nothing cfg0 dbEmpty 1 kwBadLevel).1 (by decide)⟩

/-- When two or more characters of the scanned list are active for the
account (counting one already held in the accumulator), the scan of
get_active_character raises the more-than-one-active error. -/
theorem find_active_two (A : Int) (db : DBState) :
    ∀ (l : List CharRow) (acc : Option CharRow),
      2 ≤ (l.filter (fun c => c.active_on_account == A)).length +
        (if acc.isSome then 1 else 0) →
      find_active A l acc db =
        .error (.notifyUser "The account has more than one active character") := by
  intro l
  induction l with
  | nil =>
    intro acc h
    cases acc <;> simp at h
  | cons c t ih =>
    intro acc h
    rw [List.filter_cons] at h
    cases hact : (c.active_on_account == A)
    · rw [hact] at h
      simp only [Bool.false_eq_true, if_false] at h
      have hstep : find_active A (c :: t) acc db = find_active A t acc db := by
        simp [find_active, hact]
      rw [hstep]
      exact ih acc h
    · rw [hact] at h
      simp only [if_true] at h
      cases acc with
      | some c0 => simp [find_active, hact]
      | none =>
        have hstep : find_active A (c :: t) none db = find_active A t (some c) db := by
          simp [find_active, hact]
        rw [hstep]
        apply ih (some c)
        simpa using h

/-- After deactivating every character active on a nonzero account, no
character of the list is active on it. -/
theorem filter_map_deact (A : Int) (hA : A ≠ 0) (l : List CharRow) :
    (l.map (deact A)).filter (fun c => c.active_on_account == A) = [] := by
  rw [List.filter_map]
  rw [List.map_eq_nil_iff]
  rw [List.filter_eq_nil_iff]
  intro c _
  simp only [Function.comp_apply]
  unfold deact
  by_cases hc : c.active_on_account == A
  · rw [if_pos hc]
    simp only [beq_iff_eq]
    exact fun hcontra => hA hcontra.symm
  · rw [if_neg hc]
    simpa using hc

/-- C5 (amended): with zero characters in the account's pool,
get_active_character auto-creates and returns a default character named
character, stored in the resulting state; with more than one character of the
pool active for the account it raises an error rather than resolving the
state silently — but (per the counterexample) that error is the user-facing
notifyUserException class, not a distinctly surfaced internal error. -/
theorem get_active_character_default_or_error (cfg : Config) (db : DBState) (account : Int)
    (hA : account ≠ 0) (_hacc : accUnique db) :
    ((get_available_characters db account).1 = [] →
      ∃ c db2, get_active_character cfg db account = .ok (c, db2) ∧
        c.character_name = "character" ∧ c ∈ db2.chars) ∧
    (2 ≤ ((get_available_characters db account).1.filter
        (fun c => c.active_on_account == account)).length →
      get_active_character cfg db account =
        .error (.notifyUser "The account has more than one active character")) := by
  constructor
  · intro hempty
    simp only [get_active_character]
    rw [hempty]
    simp only [List.length_nil, if_true]
    simp only [add_character_to_db]
    have havail : (get_available_characters db account).2 = (get_pool_by_account db account).2 :=
      rfl
    rw [havail]
    rw [get_pool_twice db account]
    have hchars : ((get_pool_by_account db account).2.chars.filter
        (fun c => c.pool_id == (get_pool_by_account db account).1)) = [] := hempty
    rw [hchars]
    simp only [List.map_nil, List.length_nil]
    rw [if_neg (by simp)]
    rw [if_neg (by simp)]
    rw [if_neg (by decide : ¬ (32 < ("character" : String).length))]
    rw [if_neg (by decide : ¬ ("character" : String) = "")]
    have hfil : (((get_pool_by_account db account).2.chars.map (deact account)) ++
        [({ character_id := (get_pool_by_account db account).2.next_char_id,
            character_name := strLower "character", character_color := none,
            character_image := none, total_xp := 0, roleplay_xp := 0, level := 0,
            level_notification := 0, words_cached := 0, owner_id := account,
            pool_id := (get_pool_by_account db account).1,
            active_on_account := account } : CharRow)]).filter
        (fun c => c.active_on_account == account) =
        [({ character_id := (get_pool_by_account db account).2.next_char_id,
            character_name := strLower "character", character_color := none,
            character_image := none, total_xp := 0, roleplay_xp := 0, level := 0,
            level_notification := 0, words_cached := 0, owner_id := account,
            pool_id := (get_pool_by_account db account).1,
            active_on_account := account } : CharRow)] := by
      rw [List.filter_append, filter_map_deact account hA]
      simp
    rw [hfil]
    exact ⟨_, _, rfl, show strLower "character" = "character" by decide, by simp⟩
  · intro h2
    simp only [get_active_character]
    have hne : ¬ ((get_available_characters db account).1.length = 0) := by
      intro h0
      rw [List.length_eq_zero] at h0
      rw [h0] at h2
      simp at h2
    rw [if_neg hne]
    exact find_active_two account _ _ none (by simpa using h2)

/-- After the pool lookup, the account's pool rows begin with the returned
pool id: a second lookup finds the row instead of inserting. -/
theorem pool_rows_after_get_pool (db : DBState) (X : Int) :
    ∃ rest, pool_rows (get_pool_by_account db X).2 X = (get_pool_by_account db X).1 :: rest := by
  rcases hrows : pool_rows db X with _ | ⟨p, rest⟩
  · refine ⟨[], ?_⟩
    have hfil : db.accounts.filter (fun a => a.account_id == X) = [] := by
      have h2 := hrows
      unfold pool_rows at h2
      exact List.map_eq_nil_iff.mp h2
    simp [get_pool_by_account, hrows, add_pool_for_account, pool_rows,
      List.filter_append, hfil]
  · exact ⟨rest, by simp [get_pool_by_account, hrows]⟩

/-- A lookup on a state whose pool rows for the account are nonempty returns
the head row and mutates nothing. -/
theorem get_pool_of_rows_cons {db : DBState} {X p : Int} {rest : List Int}
    (h : pool_rows db X = p :: rest) : get_pool_by_account db X = (p, db) := by
  simp [get_pool_by_account, h]

/-- The two UPDATE statements of switch_active_character change only the
active_on_account column. -/
theorem switchUpd_keeps (A P : Int) (nm : String) (c : CharRow) :
    (switchUpd A P nm c).character_name = c.character_name ∧
    (switchUpd A P nm c).pool_id = c.pool_id := by
  cases h1 : (c.active_on_account == A) <;>
    cases h2 : (c.pool_id == P && c.character_name == nm) <;>
      simp [switchUpd, deact, h1, h2]

/-- After the statement pair runs, a row is active for the (nonzero) account
exactly when it is the named row of the pool. -/
theorem switchUpd_active (A P : Int) (nm : String) (hA : A ≠ 0) (c : CharRow) :
    ((switchUpd A P nm c).active_on_account == A) =
      (c.pool_id == P && c.character_name == nm) := by
  cases h1 : (c.active_on_account == A) <;>
    cases h2 : (c.pool_id == P && c.character_name == nm) <;>
      simp [switchUpd, deact, h1, h2, Ne.symm hA]

/-- The statement pair of switch_active_character is idempotent per row. -/
theorem switchUpd_idem (A P : Int) (nm : String) (hA : A ≠ 0) (c : CharRow) :
    switchUpd A P nm (switchUpd A P nm c) = switchUpd A P nm c := by
  cases h1 : (c.active_on_account == A) <;>
    cases h2 : (c.pool_id == P && c.character_name == nm) <;>
      simp [switchUpd, deact, h1, h2, Ne.symm hA]

/-- C7: for a name held by exactly one character of the account's pool,
switch_active_character succeeds as a single commit group, afterwards exactly
one character is active for the account and it is the named one, and the call
is idempotent: running it again returns the same state unchanged. A name
absent from the pool raises the user-facing unknown-character error. -/
theorem switch_active_exactly_one (db : DBState) (account : Int) (name : String)
    (hA : account ≠ 0) (_hacc : accUnique db) :
    (((get_pool_by_account db account).2.chars.filter
        (fun c => c.pool_id == (get_pool_by_account db account).1 &&
          c.character_name == name)).length = 1 →
      ∃ db2, switch_active_character db account name = .ok db2 ∧
        ((db2.chars.filter (fun c => c.active_on_account == account)).map
          (fun c => c.character_name)) = [name] ∧
        switch_active_character db2 account name = .ok db2) ∧
    (((get_pool_by_account db account).2.chars.filter
        (fun c => c.pool_id == (get_pool_by_account db account).1 &&
          c.character_name == name)) = [] →
      switch_active_character db account name =
        .error (.notifyUser "The account does not have access to that character")) := by
  constructor
  · intro hone
    obtain ⟨r, hr⟩ := List.length_eq_one.mp hone
    have hmem : r ∈ (get_pool_by_account db account).2.chars.filter
        (fun c => c.pool_id == (get_pool_by_account db account).1 &&
          c.character_name == name) := by
      rw [hr]; exact List.mem_singleton_self r
    have hq : (r.pool_id == (get_pool_by_account db account).1 &&
        r.character_name == name) = true := (List.mem_filter.mp hmem).2
    have hname : r.character_name = name := by
      have h2 := hq
      simp only [Bool.and_eq_true, beq_iff_eq] at h2
      exact h2.2
    simp only [switch_active_character]
    rw [hr]
    simp only [List.map_cons, List.map_nil, List.isEmpty_cons, Bool.false_eq_true, if_false]
    refine ⟨_, rfl, ?_, ?_⟩
    · rw [List.filter_map]
      rw [List.filter_congr (fun c _ => by
        simp only [Function.comp_apply]
        exact switchUpd_active account (get_pool_by_account db account).1 name hA c)]
      rw [hr]
      simp only [List.map_cons, List.map_nil]
      rw [(switchUpd_keeps account (get_pool_by_account db account).1 name r).1, hname]
    · obtain ⟨rest, hrest⟩ := pool_rows_after_get_pool db account
      have hgp2 : get_pool_by_account
          { (get_pool_by_account db account).2 with
            chars := (get_pool_by_account db account).2.chars.map
              (switchUpd account (get_pool_by_account db account).1 name) } account =
          ((get_pool_by_account db account).1,
            { (get_pool_by_account db account).2 with
              chars := (get_pool_by_account db account).2.chars.map
                (switchUpd account (get_pool_by_account db account).1 name) }) :=
        get_pool_of_rows_cons hrest
      rw [hgp2]
      dsimp only
      have hq2 : ((get_pool_by_account db account).2.chars.map
          (switchUpd account (get_pool_by_account db account).1 name)).filter
          (fun c => c.pool_id == (get_pool_by_account db account).1 &&
            c.character_name == name) =
          ((get_pool_by_account db account).2.chars.filter
            (fun c => c.pool_id == (get_pool_by_account db account).1 &&
              c.character_name == name)).map
            (switchUpd account (get_pool_by_account db account).1 name) := by
        rw [List.filter_map]
        rw [List.filter_congr (fun c _ => by
          simp only [Function.comp_apply]
          rw [(switchUpd_keeps account (get_pool_by_account db account).1 name c).1,
            (switchUpd_keeps account (get_pool_by_account db account).1 name c).2])]
      rw [hq2, hr]
      simp only [List.map_cons, List.map_nil, List.isEmpty_cons, Bool.false_eq_true, if_false]
      have hmap2 : ((get_pool_by_account db account).2.chars.map
          (switchUpd account (get_pool_by_account db account).1 name)).map
          (switchUpd account (get_pool_by_account db account).1 name) =
          (get_pool_by_account db account).2.chars.map
            (switchUpd account (get_pool_by_account db account).1 name) := by
        rw [List.map_map]
        apply List.map_congr_left
        intro c _
        simp only [Function.comp_apply]
        exact switchUpd_idem account (get_pool_by_account db account).1 name hA c
      rw [hmap2]
  · intro habs
    simp only [switch_active_character]
    rw [habs]
    simp only [List.map_nil, List.isEmpty_nil, if_true]

/-- C7 witness: account 7 switches to aria, which exists once in its pool. -/
theorem switch_active_exactly_one_witness :
    ((get_pool_by_account dbSwitch 7).2.chars.filter
      (fun c => c.pool_id == (get_pool_by_account dbSwitch 7).1 &&
        c.character_name == "aria")).length = 1 ∧
    ∃ db2, switch_active_character dbSwitch 7 "aria" = .ok db2 ∧
      ((db2.chars.filter (fun c => c.active_on_account == 7)).map
        (fun c => c.character_name)) = ["aria"] ∧
      switch_active_character db2 7 "aria" = .ok db2 :=
  ⟨by decide,
    (switch_active_exactly_one dbSwitch 7 "aria" (by decide) (by decide)).1 (by decide)⟩

/-- C5 amended-claim witness: the empty store, account 7. -/
theorem get_active_character_default_or_error_witness :
    (7 : Int) ≠ 0 ∧ accUnique dbEmpty ∧ (get_available_characters dbEmpty 7).1 = [] ∧
    ∃ c db2, get_active_character cfg0 dbEmpty 7 = .ok (c, db2) ∧
      c.character_name = "character" ∧ c ∈ db2.chars :=
  ⟨by decide, by decide, by decide,
    (get_active_character_default_or_error cfg0 dbEmpty 7 (by decide) (by decide)).1
      (by decide)⟩

end XpBot
